import Mathlib

/-!
Shallow embedding of the `SimpsonsCarnival` Solidity contract
(`contracts/SimpsonsCarnival.sol`): a wagering game where a player buys a
key (bronze/silver/gold), picks a door, and an asynchronous VRF callback
settles the wager into WIN / BREAK_EVEN / LOSE, maintaining a jackpot
pool, per-player statistics and a bounded leaderboard.

Addresses are modelled as `Nat` (`0` is `address(0)`), amounts in wei as
`Nat`, Solidity mappings as total functions with the zero-value default,
and reverting external functions as `Except String`: an `Except.error`
is a revert of the whole call (no partial state change survives).
-/

namespace Carnival

inductive KeyType : Type
  | BRONZE
  | SILVER
  | GOLD
deriving DecidableEq, Repr

inductive GameResult : Type
  | PENDING
  | WIN
  | BREAK_EVEN
  | LOSE
deriving DecidableEq, Repr

structure Game : Type where
  player : Nat
  keyType : KeyType
  wager : Nat
  doorSelected : Nat
  result : GameResult
  payout : Nat
  timestamp : Nat
  requestId : Nat
deriving DecidableEq, Repr

structure PlayerStats : Type where
  totalGames : Nat
  totalWins : Nat
  totalLosses : Nat
  totalBreakEvens : Nat
  totalWagered : Nat
  totalWon : Nat
  lastPlayTime : Nat
deriving DecidableEq, Repr

inductive Event : Type
  | KeyPurchased (player : Nat) (keyType : KeyType) (price : Nat)
  | GameStarted (player gameId requestId doorSelected : Nat)
  | GameCompleted (player gameId : Nat) (result : GameResult) (payout : Nat)
  | JackpotWon (winner amount : Nat)
  | JackpotContribution (amount : Nat)
  | RandomnessRequested (requestId : Nat)
  | RandomnessFulfilled (requestId randomWord : Nat)
deriving DecidableEq, Repr

/-- The full mutable state of the contract, plus the emitted event log. -/
structure CarnivalState : Type where
  owner : Nat
  paused : Bool
  jackpotPool : Nat
  totalGamesPlayed : Nat
  totalKeysUsed : Nat
  lastJackpotWinTime : Nat
  jackpotTriggerCount : Nat
  playerStats : Nat → PlayerStats
  games : Nat → Game
  requestIdToPlayer : Nat → Nat
  playerGameHistory : Nat → List Nat
  leaderboard : List Nat
  lastJackpotWinner : Nat
  lastJackpotAmount : Nat
  events : List Event

def BRONZE_KEY_PRICE : Nat := 5000000000000000
def SILVER_KEY_PRICE : Nat := 10000000000000000
def GOLD_KEY_PRICE : Nat := 25000000000000000
def WIN_MULTIPLIER : Nat := 2
def JACKPOT_CONTRIBUTION_PERCENT : Nat := 5
def HOUSE_EDGE_PERCENT : Nat := 5
def WIN_PROBABILITY : Nat := 30
def BREAK_EVEN_PROBABILITY : Nat := 35

/-- Solidity zero value of the `Game` struct (default of `mapping(uint256 => Game)`). -/
def zeroGame : Game :=
  { player := 0, keyType := .BRONZE, wager := 0, doorSelected := 0,
    result := .PENDING, payout := 0, timestamp := 0, requestId := 0 }

/-- Solidity zero value of the `PlayerStats` struct. -/
def zeroStats : PlayerStats :=
  { totalGames := 0, totalWins := 0, totalLosses := 0, totalBreakEvens := 0,
    totalWagered := 0, totalWon := 0, lastPlayTime := 0 }

/-- State right after the constructor ran (deployer becomes owner;
`jackpotTriggerCount` has its declared initial value `1000`). -/
def initialState (deployer : Nat) : CarnivalState :=
  { owner := deployer, paused := false, jackpotPool := 0, totalGamesPlayed := 0,
    totalKeysUsed := 0, lastJackpotWinTime := 0, jackpotTriggerCount := 1000,
    playerStats := fun _ => zeroStats, games := fun _ => zeroGame,
    requestIdToPlayer := fun _ => 0, playerGameHistory := fun _ => [],
    leaderboard := [], lastJackpotWinner := 0, lastJackpotAmount := 0,
    events := [] }

/-- `getKeyPrice` of the contract. -/
def getKeyPrice : KeyType → Nat
  | .BRONZE => BRONZE_KEY_PRICE
  | .SILVER => SILVER_KEY_PRICE
  | .GOLD => GOLD_KEY_PRICE

/-- `_triggerJackpot`: requires a positive pool, then pays the whole pool
to `winner`, zeroes it, records winner/amount/time and emits `JackpotWon`. -/
def triggerJackpot (s : CarnivalState) (winner now : Nat) : Except String CarnivalState :=
  if 0 < s.jackpotPool then
    Except.ok { s with
      jackpotPool := 0,
      lastJackpotWinner := winner,
      lastJackpotAmount := s.jackpotPool,
      lastJackpotWinTime := now,
      events := s.events ++ [Event.JackpotWon winner s.jackpotPool] }
  else
    Except.error "No jackpot to distribute"

/-- `playGame`: admission of a wager. `requestId` stands for the id the VRF
coordinator returns, `now` for `block.timestamp`. After booking the game the
function evaluates the jackpot trigger on the incremented `totalKeysUsed`. -/
def playGame (s : CarnivalState) (sender msgValue : Nat) (keyType : KeyType)
    (doorNumber requestId now : Nat) : Except String CarnivalState :=
  if s.paused then Except.error "Pausable: paused"
  else if ¬(1 ≤ doorNumber ∧ doorNumber ≤ 3) then Except.error "Invalid door number"
  else
    let keyPrice := getKeyPrice keyType
    if msgValue ≠ keyPrice then Except.error "Incorrect payment amount"
    else
      let gameId := s.totalGamesPlayed
      let s1 : CarnivalState := { s with
        totalGamesPlayed := s.totalGamesPlayed + 1,
        totalKeysUsed := s.totalKeysUsed + 1,
        games := fun i => if i = gameId then
            { player := sender, keyType := keyType, wager := keyPrice,
              doorSelected := doorNumber, result := .PENDING, payout := 0,
              timestamp := now, requestId := requestId }
          else s.games i,
        requestIdToPlayer := fun r => if r = requestId then sender else s.requestIdToPlayer r,
        playerGameHistory := fun a => if a = sender then s.playerGameHistory a ++ [gameId]
          else s.playerGameHistory a,
        playerStats := fun a => if a = sender then
            { s.playerStats a with
              totalGames := (s.playerStats a).totalGames + 1,
              totalWagered := (s.playerStats a).totalWagered + keyPrice,
              lastPlayTime := now }
          else s.playerStats a,
        events := s.events ++ [Event.KeyPurchased sender keyType keyPrice,
          Event.GameStarted sender gameId requestId doorNumber,
          Event.RandomnessRequested requestId] }
      if s1.totalKeysUsed % s1.jackpotTriggerCount = 0 then
        triggerJackpot s1 sender now
      else
        Except.ok s1

/-- `findGameByRequestId`: linear scan over game ids `0 ..
totalGamesPlayed - 1`, first game whose `requestId` matches. -/
def findGameByRequestId (s : CarnivalState) (requestId : Nat) : Option Nat :=
  (List.range s.totalGamesPlayed).find? (fun i => (s.games i).requestId == requestId)

/-- One inner pass of the contract's bubble sort, limited to the first `n`
adjacent comparisons (`j` loop of `_updateLeaderboard`, bound `n`);
swaps when the left player's `totalWon` is strictly smaller. -/
def onePassN (w : Nat → Nat) : Nat → List Nat → List Nat
  | Nat.succ n, a :: b :: rest =>
      if w a < w b then b :: onePassN w n (a :: rest)
      else a :: onePassN w n (b :: rest)
  | _, l => l

/-- The outer `i` loop of `_updateLeaderboard`'s bubble sort: started with
counter `l.length - 1`, pass with counter `k+1` performs `k+1` comparisons
(the source's inner bound `length - i - 1`). -/
def bubbleOuter (w : Nat → Nat) : Nat → List Nat → List Nat
  | 0, l => l
  | Nat.succ k, l => bubbleOuter w k (onePassN w (Nat.succ k) l)

/-- `_updateLeaderboard`: append the player when absent and fewer than 100
entries, then bubble-sort by `totalWon` descending. -/
def updateLeaderboard (s : CarnivalState) (player : Nat) : CarnivalState :=
  let present := s.leaderboard.contains player
  let lb := if ¬present ∧ s.leaderboard.length < 100 then s.leaderboard ++ [player]
    else s.leaderboard
  { s with leaderboard :=
      bubbleOuter (fun a => (s.playerStats a).totalWon) (lb.length - 1) lb }

/-- `fulfillRandomWords`: the VRF callback settling the wager correlated to
`requestId`. Note that the source never deletes the
`requestIdToPlayer[requestId]` entry. -/
def fulfillRandomWords (s : CarnivalState) (requestId : Nat)
    (randomWords : List Nat) : Except String CarnivalState :=
  let player := s.requestIdToPlayer requestId
  if player = 0 then Except.error "Unknown request"
  else
    match randomWords with
    | [] => Except.error "array index out of bounds"
    | randomValue :: _ =>
      let s0 := { s with events := s.events ++ [Event.RandomnessFulfilled requestId randomValue] }
      match findGameByRequestId s0 requestId with
      | none => Except.error "Game not found"
      | some gameId =>
        let game := s0.games gameId
        let outcome := randomValue % 100
        let s1 :=
          if outcome < WIN_PROBABILITY then
            let payout := game.wager * WIN_MULTIPLIER
            let jackpotContribution := payout * JACKPOT_CONTRIBUTION_PERCENT / 100
            { s0 with
              games := fun i => if i = gameId then
                  { game with result := .WIN, payout := payout } else s0.games i,
              playerStats := fun a => if a = player then
                  { s0.playerStats a with
                    totalWins := (s0.playerStats a).totalWins + 1,
                    totalWon := (s0.playerStats a).totalWon + payout }
                else s0.playerStats a,
              jackpotPool := s0.jackpotPool + jackpotContribution,
              events := s0.events ++ [Event.JackpotContribution jackpotContribution] }
          else if outcome < WIN_PROBABILITY + BREAK_EVEN_PROBABILITY then
            { s0 with
              games := fun i => if i = gameId then
                  { game with result := .BREAK_EVEN, payout := game.wager } else s0.games i,
              playerStats := fun a => if a = player then
                  { s0.playerStats a with
                    totalBreakEvens := (s0.playerStats a).totalBreakEvens + 1 }
                else s0.playerStats a }
          else
            let houseEdge := game.wager * HOUSE_EDGE_PERCENT / 100
            let jackpotContribution := game.wager - houseEdge
            { s0 with
              games := fun i => if i = gameId then
                  { game with result := .LOSE, payout := 0 } else s0.games i,
              playerStats := fun a => if a = player then
                  { s0.playerStats a with
                    totalLosses := (s0.playerStats a).totalLosses + 1 }
                else s0.playerStats a,
              jackpotPool := s0.jackpotPool + jackpotContribution,
              events := s0.events ++ [Event.JackpotContribution jackpotContribution] }
        let s2 := updateLeaderboard s1 player
        Except.ok { s2 with events := s2.events ++
          [Event.GameCompleted player gameId (s1.games gameId).result (s1.games gameId).payout] }

/-- `setJackpotTriggerCount` (the spec's `setJackpotThreshold`):
owner-only, rejects a zero threshold. -/
def setJackpotTriggerCount (s : CarnivalState) (sender count : Nat) :
    Except String CarnivalState :=
  if sender ≠ s.owner then Except.error "Ownable: caller is not the owner"
  else if 0 < count then Except.ok { s with jackpotTriggerCount := count }
  else Except.error "Invalid count"

/-- `pause` (owner-only, OpenZeppelin `_pause` requires not paused). -/
def pause (s : CarnivalState) (sender : Nat) : Except String CarnivalState :=
  if sender ≠ s.owner then Except.error "Ownable: caller is not the owner"
  else if s.paused then Except.error "Pausable: paused"
  else Except.ok { s with paused := true }

/-- `unpause` (owner-only, requires paused). -/
def unpause (s : CarnivalState) (sender : Nat) : Except String CarnivalState :=
  if sender ≠ s.owner then Except.error "Ownable: caller is not the owner"
  else if s.paused then Except.ok { s with paused := false }
  else Except.error "Pausable: not paused"

/-- The `receive()` fallback: every plain value transfer is added to the
jackpot pool and announced as a `JackpotContribution`. -/
def receiveEther (s : CarnivalState) (msgValue : Nat) : CarnivalState :=
  { s with
    jackpotPool := s.jackpotPool + msgValue,
    events := s.events ++ [Event.JackpotContribution msgValue] }

/-- Did the call succeed (not revert)? -/
def isOk : Except String CarnivalState → Bool
  | Except.ok _ => true
  | Except.error _ => false

/-- Post-state of a successful call (dummy initial state on revert; every
theorem that uses it also pins down success of the call). -/
def stateOf : Except String CarnivalState → CarnivalState
  | Except.ok s => s
  | Except.error _ => initialState 0

end Carnival

namespace Carnival

/-- **C1** (code bug): the source never executes
`delete requestIdToPlayer[requestId]`, so after a wager settles, a replayed
`fulfillRandomWords` for the same request id is NOT rejected with
"Unknown request": it settles the same game a second time. Concretely:
player `1` plays a bronze key (request id `7`), the wager settles as LOSE
putting `0.95 * stake = 4.75e15` wei in the pool; the pending-request entry
is still present afterwards, and a second delivery for request id `7`
succeeds, contributes to the pool again (`9.5e15`) and counts a second loss. -/
theorem c1_replay_double_settles :
    (let s1 := stateOf (playGame (initialState 0) 1 BRONZE_KEY_PRICE KeyType.BRONZE 1 7 0)
     let s2 := stateOf (fulfillRandomWords s1 7 [99])
     let r3 := fulfillRandomWords s2 7 [99]
     (s2.games 0).result = GameResult.LOSE ∧
     s2.jackpotPool = 4750000000000000 ∧
     s2.requestIdToPlayer 7 = 1 ∧
     isOk r3 = true ∧
     (stateOf r3).jackpotPool = 9500000000000000 ∧
     ((stateOf r3).playerStats 1).totalLosses = 2) := by
  decide

/-- **C2** (counterexample): a settled WIN wager violates the claimed
conservation equation `stake = payout + margin + jackpot_contribution`
(WIN: margin 0, contribution 5% of payout): bronze stake `5e15` wei pays
`1e16` and contributes `5e14`, and `5e15 ≠ 1e16 + 0 + 5e14`. -/
theorem c2_counterexample :
    let s1 := stateOf (playGame (initialState 0) 1 BRONZE_KEY_PRICE KeyType.BRONZE 1 41 0)
    let r := fulfillRandomWords s1 41 [0]
    let s2 := stateOf r
    isOk r = true ∧
    (s2.games 0).result = GameResult.WIN ∧
    (s2.games 0).wager = 5000000000000000 ∧
    (s2.games 0).payout = 10000000000000000 ∧
    s2.jackpotPool - s1.jackpotPool = 500000000000000 ∧
    ¬((s2.games 0).wager
        = (s2.games 0).payout + 0 + (s2.jackpotPool - s1.jackpotPool)) := by
  decide

/-- **C3** (counterexample): with trigger threshold 1 and an empty pool, the
very first admission makes the trigger condition hold, and `_triggerJackpot`
reverts the whole call with "No jackpot to distribute" — an empty-pool
trigger is an error, not an idempotent no-op payout (and the trigger runs at
admission, not after settlement). -/
theorem c3_counterexample :
    playGame { initialState 0 with jackpotTriggerCount := 1 } 1
        BRONZE_KEY_PRICE KeyType.BRONZE 1 7 0
      = Except.error "No jackpot to distribute" := by
  rfl

/-- **C4** (amended): with threshold 2 and two wagers of the same tier price
`S` that both settle as LOSE, the pool is `S - 5% * S = 0.95 * S` after the
first settlement; the trigger then fires during the SECOND ADMISSION (not
after its settlement), paying that `0.95 * S` — not `1.9 * S` — to the second
participant and resetting the pool to 0; the second settlement afterwards
refills the pool to `0.95 * S`, so the pool does not end at 0. -/
theorem c4_trigger_cadence (k : KeyType) :
    let S := getKeyPrice k
    let s0 := { initialState 0 with jackpotTriggerCount := 2 }
    let s1 := stateOf (playGame s0 1 S k 1 11 0)
    let s2 := stateOf (fulfillRandomWords s1 11 [99])
    let a2 := playGame s2 2 S k 1 12 0
    let s3 := stateOf a2
    let f2 := fulfillRandomWords s3 12 [99]
    let s4 := stateOf f2
    s2.jackpotPool = S - S * HOUSE_EDGE_PERCENT / 100 ∧
    isOk a2 = true ∧
    s3.lastJackpotWinner = 2 ∧
    s3.lastJackpotAmount = S - S * HOUSE_EDGE_PERCENT / 100 ∧
    s3.jackpotPool = 0 ∧
    isOk f2 = true ∧
    (s4.games 1).result = GameResult.LOSE ∧
    s4.jackpotPool = S - S * HOUSE_EDGE_PERCENT / 100 := by
  cases k <;> decide

/-- **C7** (counterexample): ties are NOT broken by insertion order. Player 1
wins a bronze game (totalWon `1e16`, leaderboard `[1]`), player 2 wins a
silver game (totalWon `2e16`, leaderboard `[2, 1]`), then player 1 wins a
second bronze game (totalWon `2e16`, a tie). Player 1 entered the
leaderboard first, so the claimed order is `[1, 2]`, but the stable bubble
sort keeps the pre-update order `[2, 1]`. -/
theorem c7_counterexample :
    let s2 := stateOf (fulfillRandomWords
      (stateOf (playGame (initialState 0) 1 BRONZE_KEY_PRICE KeyType.BRONZE 1 21 0)) 21 [0])
    let s4 := stateOf (fulfillRandomWords
      (stateOf (playGame s2 2 SILVER_KEY_PRICE KeyType.SILVER 1 22 0)) 22 [0])
    let s6 := stateOf (fulfillRandomWords
      (stateOf (playGame s4 1 BRONZE_KEY_PRICE KeyType.BRONZE 1 23 0)) 23 [0])
    s2.leaderboard = [1] ∧
    s4.leaderboard = [2, 1] ∧
    (s6.playerStats 1).totalWon = (s6.playerStats 2).totalWon ∧
    s6.leaderboard = [2, 1] ∧
    s6.leaderboard ≠ [1, 2] := by
  decide

/-- **C9** (confirmed): called by the owner, `setJackpotTriggerCount`
rejects a non-positive threshold with the `InvalidThreshold`-style error
"Invalid count", and on a positive threshold succeeds, the resulting state
being exactly the old state with only `jackpotTriggerCount` replaced — in
particular `totalKeysUsed` and every other field are untouched, and the new
threshold is in force immediately. -/
theorem c9_set_jackpot_threshold (s : CarnivalState) (sender count : Nat)
    (h : sender = s.owner) :
    (count = 0 → setJackpotTriggerCount s sender count = Except.error "Invalid count") ∧
    (0 < count → setJackpotTriggerCount s sender count
        = Except.ok { s with jackpotTriggerCount := count }) := by
  subst h
  unfold setJackpotTriggerCount
  constructor
  · intro hc; subst hc; simp
  · intro hc; simp [hc]

/-- Witness for C9 at a concrete input: owner `5`, new threshold `3`. -/
theorem c9_witness :
    ((3 : Nat) = 0 → setJackpotTriggerCount (initialState 5) 5 3
        = Except.error "Invalid count") ∧
    (0 < (3 : Nat) → setJackpotTriggerCount (initialState 5) 5 3
        = Except.ok { initialState 5 with jackpotTriggerCount := 3 }) :=
  c9_set_jackpot_threshold (initialState 5) 5 3 rfl

/-- **C10** (confirmed): a plain value transfer of `v` wei hitting
`receive()` increases the jackpot pool by exactly `v` and emits
`JackpotContribution v`, leaving games, counters, player statistics and
the leaderboard untouched — the pool can grow with no wager involved. -/
theorem c10_receive_contribution (s : CarnivalState) (v : Nat) :
    (receiveEther s v).jackpotPool = s.jackpotPool + v ∧
    (receiveEther s v).events = s.events ++ [Event.JackpotContribution v] ∧
    (receiveEther s v).totalGamesPlayed = s.totalGamesPlayed ∧
    (receiveEther s v).totalKeysUsed = s.totalKeysUsed ∧
    (receiveEther s v).games = s.games ∧
    (receiveEther s v).playerStats = s.playerStats ∧
    (receiveEther s v).leaderboard = s.leaderboard :=
  ⟨rfl, rfl, rfl, rfl, rfl, rfl, rfl⟩

end Carnival

namespace Carnival

/-- `findGameByRequestId` only reads `totalGamesPlayed` and `games`, so an
event append does not change it. -/
theorem findGame_events (s : CarnivalState) (e : List Event) (R : Nat) :
    findGameByRequestId { s with events := e } R = findGameByRequestId s R := rfl

/-- **C5** (confirmed): settlement buckets the delivered random value by
`b = v % 100`: WIN with payout `2 * stake` iff `b < 30`, BREAK_EVEN with
payout `stake` iff `30 ≤ b < 65`, LOSE with payout `0` iff `65 ≤ b`; so
bucket 29 is a WIN, buckets 30 and 64 BREAK_EVEN, bucket 65 a LOSE. -/
theorem c5_bucket_determinism (s : CarnivalState) (R v gid : Nat)
    (hp : s.requestIdToPlayer R ≠ 0)
    (hg : findGameByRequestId s R = some gid) :
    ∃ t, fulfillRandomWords s R [v] = Except.ok t ∧
      ((t.games gid).result = if v % 100 < 30 then GameResult.WIN
        else if v % 100 < 65 then GameResult.BREAK_EVEN else GameResult.LOSE) ∧
      ((t.games gid).payout = if v % 100 < 30 then (s.games gid).wager * 2
        else if v % 100 < 65 then (s.games gid).wager else 0) := by
  unfold fulfillRandomWords
  simp only [findGame_events, hg, hp, if_neg, ne_eq, not_false_eq_true, if_false]
  refine ⟨_, rfl, ?_, ?_⟩ <;>
    · simp only [updateLeaderboard, WIN_PROBABILITY, BREAK_EVEN_PROBABILITY, WIN_MULTIPLIER]
      split_ifs with h1 h2 <;> simp_all

/-- Witness for C5: the single pending bronze wager of player 1 (request id
7), settled with random value 29 — the topmost WIN bucket. -/
theorem c5_witness :
    ∃ t, fulfillRandomWords
        (stateOf (playGame (initialState 0) 1 BRONZE_KEY_PRICE KeyType.BRONZE 1 7 0)) 7 [29]
        = Except.ok t ∧
      ((t.games 0).result = if 29 % 100 < 30 then GameResult.WIN
        else if 29 % 100 < 65 then GameResult.BREAK_EVEN else GameResult.LOSE) ∧
      ((t.games 0).payout = if 29 % 100 < 30 then
          ((stateOf (playGame (initialState 0) 1 BRONZE_KEY_PRICE KeyType.BRONZE 1 7 0)).games 0).wager * 2
        else if 29 % 100 < 65 then
          ((stateOf (playGame (initialState 0) 1 BRONZE_KEY_PRICE KeyType.BRONZE 1 7 0)).games 0).wager
        else 0) :=
  c5_bucket_determinism _ 7 29 0 (by decide) (by decide)

end Carnival

namespace Carnival

/-- The LOSE-side margin is at most the stake (floor of 5%). -/
theorem houseEdge_le_wager (W : Nat) : W * HOUSE_EDGE_PERCENT / 100 ≤ W := by
  unfold HOUSE_EDGE_PERCENT
  calc W * 5 / 100 ≤ W * 100 / 100 :=
        Nat.div_le_div_right (Nat.mul_le_mul_left W (by norm_num))
    _ = W := Nat.mul_div_cancel W (by norm_num)

/-- **C2** (amended): per-outcome ledger effects of settlement, with stake
`W`. LOSE: payout 0, margin `⌊5% W⌋` retained, contribution `W - ⌊5% W⌋`
added to the pool, and the conservation equation
`W = payout + margin + contribution` holds. BREAK_EVEN: payout `W`, no
margin, no contribution, pool unchanged (conservation trivially holds).
WIN: payout `2W` and an ADDITIONAL `⌊5% payout⌋` enters the pool from house
funds, so `payout + contribution` strictly exceeds the stake whenever
`W > 0` — conservation as claimed does not apply to wins. -/
theorem c2_conservation (s : CarnivalState) (R v gid : Nat)
    (hp : s.requestIdToPlayer R ≠ 0)
    (hg : findGameByRequestId s R = some gid) :
    ∃ t, fulfillRandomWords s R [v] = Except.ok t ∧
      (65 ≤ v % 100 →
        (t.games gid).result = GameResult.LOSE ∧
        (t.games gid).payout = 0 ∧
        t.jackpotPool = s.jackpotPool
          + ((s.games gid).wager - (s.games gid).wager * HOUSE_EDGE_PERCENT / 100) ∧
        (s.games gid).wager = (t.games gid).payout
          + (s.games gid).wager * HOUSE_EDGE_PERCENT / 100
          + ((s.games gid).wager - (s.games gid).wager * HOUSE_EDGE_PERCENT / 100)) ∧
      (30 ≤ v % 100 → v % 100 < 65 →
        (t.games gid).result = GameResult.BREAK_EVEN ∧
        (t.games gid).payout = (s.games gid).wager ∧
        t.jackpotPool = s.jackpotPool) ∧
      (v % 100 < 30 →
        (t.games gid).result = GameResult.WIN ∧
        (t.games gid).payout = (s.games gid).wager * WIN_MULTIPLIER ∧
        t.jackpotPool = s.jackpotPool
          + (s.games gid).wager * WIN_MULTIPLIER * JACKPOT_CONTRIBUTION_PERCENT / 100) := by
  unfold fulfillRandomWords
  simp only [findGame_events, hg, hp, if_neg, ne_eq, not_false_eq_true, if_false]
  refine ⟨_, rfl, ?_, ?_, ?_⟩ <;>
    · simp only [updateLeaderboard, WIN_PROBABILITY, BREAK_EVEN_PROBABILITY, WIN_MULTIPLIER,
        HOUSE_EDGE_PERCENT, JACKPOT_CONTRIBUTION_PERCENT]
      split_ifs with h1 h2 <;>
        first
          | (intros; omega)
          | (intro hv
             simp_all
             have := houseEdge_le_wager (s.games gid).wager
             simp only [HOUSE_EDGE_PERCENT] at this
             omega)
          | (intros; simp_all)

end Carnival

namespace Carnival

/-- Witness for C2 at a concrete input: player 1's pending bronze wager
(request id 7) settled with random value 99 (LOSE bucket). -/
theorem c2_witness :
    ∃ t, fulfillRandomWords
        (stateOf (playGame (initialState 0) 1 BRONZE_KEY_PRICE KeyType.BRONZE 1 7 0)) 7 [99]
        = Except.ok t ∧
      (65 ≤ 99 % 100 →
        (t.games 0).result = GameResult.LOSE ∧
        (t.games 0).payout = 0 ∧
        t.jackpotPool = (stateOf (playGame (initialState 0) 1 BRONZE_KEY_PRICE KeyType.BRONZE 1 7 0)).jackpotPool
          + (((stateOf (playGame (initialState 0) 1 BRONZE_KEY_PRICE KeyType.BRONZE 1 7 0)).games 0).wager
            - ((stateOf (playGame (initialState 0) 1 BRONZE_KEY_PRICE KeyType.BRONZE 1 7 0)).games 0).wager
              * HOUSE_EDGE_PERCENT / 100) ∧
        ((stateOf (playGame (initialState 0) 1 BRONZE_KEY_PRICE KeyType.BRONZE 1 7 0)).games 0).wager
          = (t.games 0).payout
          + ((stateOf (playGame (initialState 0) 1 BRONZE_KEY_PRICE KeyType.BRONZE 1 7 0)).games 0).wager
            * HOUSE_EDGE_PERCENT / 100
          + (((stateOf (playGame (initialState 0) 1 BRONZE_KEY_PRICE KeyType.BRONZE 1 7 0)).games 0).wager
            - ((stateOf (playGame (initialState 0) 1 BRONZE_KEY_PRICE KeyType.BRONZE 1 7 0)).games 0).wager
              * HOUSE_EDGE_PERCENT / 100)) ∧
      (30 ≤ 99 % 100 → 99 % 100 < 65 →
        (t.games 0).result = GameResult.BREAK_EVEN ∧
        (t.games 0).payout = ((stateOf (playGame (initialState 0) 1 BRONZE_KEY_PRICE KeyType.BRONZE 1 7 0)).games 0).wager ∧
        t.jackpotPool = (stateOf (playGame (initialState 0) 1 BRONZE_KEY_PRICE KeyType.BRONZE 1 7 0)).jackpotPool) ∧
      (99 % 100 < 30 →
        (t.games 0).result = GameResult.WIN ∧
        (t.games 0).payout = ((stateOf (playGame (initialState 0) 1 BRONZE_KEY_PRICE KeyType.BRONZE 1 7 0)).games 0).wager * WIN_MULTIPLIER ∧
        t.jackpotPool = (stateOf (playGame (initialState 0) 1 BRONZE_KEY_PRICE KeyType.BRONZE 1 7 0)).jackpotPool
          + ((stateOf (playGame (initialState 0) 1 BRONZE_KEY_PRICE KeyType.BRONZE 1 7 0)).games 0).wager
            * WIN_MULTIPLIER * JACKPOT_CONTRIBUTION_PERCENT / 100) :=
  c2_conservation _ 7 99 0 (by decide) (by decide)

end Carnival

namespace Carnival

/-- **C3** (amended): the jackpot trigger is evaluated at ADMISSION
(`playGame`), not after settlement: once the incremented usage counter
satisfies `totalKeysUsed % jackpotTriggerCount = 0`, then (a) with a
positive pool the admission succeeds, the whole pool is paid to the
ADMITTING participant, the pool resets to 0, winner/amount/time are
recorded and `JackpotWon` is emitted; (b) with an empty pool the whole
admission reverts with "No jackpot to distribute" — an error, not an
idempotent no-op payout. -/
theorem c3_trigger_at_admission (s : CarnivalState) (sender v door req now : Nat)
    (k : KeyType) (hpause : s.paused = false) (hd1 : 1 ≤ door) (hd3 : door ≤ 3)
    (hv : v = getKeyPrice k)
    (ht : (s.totalKeysUsed + 1) % s.jackpotTriggerCount = 0) :
    (0 < s.jackpotPool →
      ∃ t, playGame s sender v k door req now = Except.ok t ∧
        t.jackpotPool = 0 ∧
        t.lastJackpotWinner = sender ∧
        t.lastJackpotAmount = s.jackpotPool ∧
        t.lastJackpotWinTime = now ∧
        t.totalKeysUsed = s.totalKeysUsed + 1 ∧
        t.events = s.events ++ [Event.KeyPurchased sender k (getKeyPrice k),
          Event.GameStarted sender s.totalGamesPlayed req door,
          Event.RandomnessRequested req,
          Event.JackpotWon sender s.jackpotPool]) ∧
    (s.jackpotPool = 0 →
      playGame s sender v k door req now = Except.error "No jackpot to distribute") := by
  subst hv
  unfold playGame triggerJackpot
  simp only [hpause, hd1, hd3, and_self, not_true_eq_false, if_false, Bool.false_eq_true,
    ne_eq, not_false_eq_true, if_true, not_not, ht]
  constructor
  · intro hpool
    simp only [hpool, if_pos, if_true]
    exact ⟨_, rfl, rfl, rfl, rfl, rfl, rfl, by simp⟩
  · intro hpool
    simp [hpool]

end Carnival

namespace Carnival

/-- Witness for C3: threshold 1 and a pre-seeded pool of 42 wei, so the
first admission by player 1 fires the trigger. -/
theorem c3_witness :
    (0 < ({ initialState 0 with jackpotTriggerCount := 1, jackpotPool := 42 } : CarnivalState).jackpotPool →
      ∃ t, playGame { initialState 0 with jackpotTriggerCount := 1, jackpotPool := 42 } 1
          BRONZE_KEY_PRICE KeyType.BRONZE 1 7 9 = Except.ok t ∧
        t.jackpotPool = 0 ∧
        t.lastJackpotWinner = 1 ∧
        t.lastJackpotAmount = ({ initialState 0 with jackpotTriggerCount := 1, jackpotPool := 42 } : CarnivalState).jackpotPool ∧
        t.lastJackpotWinTime = 9 ∧
        t.totalKeysUsed = ({ initialState 0 with jackpotTriggerCount := 1, jackpotPool := 42 } : CarnivalState).totalKeysUsed + 1 ∧
        t.events = ({ initialState 0 with jackpotTriggerCount := 1, jackpotPool := 42 } : CarnivalState).events
          ++ [Event.KeyPurchased 1 KeyType.BRONZE (getKeyPrice KeyType.BRONZE),
            Event.GameStarted 1 ({ initialState 0 with jackpotTriggerCount := 1, jackpotPool := 42 } : CarnivalState).totalGamesPlayed 7 1,
            Event.RandomnessRequested 7,
            Event.JackpotWon 1 ({ initialState 0 with jackpotTriggerCount := 1, jackpotPool := 42 } : CarnivalState).jackpotPool]) ∧
    (({ initialState 0 with jackpotTriggerCount := 1, jackpotPool := 42 } : CarnivalState).jackpotPool = 0 →
      playGame { initialState 0 with jackpotTriggerCount := 1, jackpotPool := 42 } 1
          BRONZE_KEY_PRICE KeyType.BRONZE 1 7 9 = Except.error "No jackpot to distribute") :=
  c3_trigger_at_admission _ 1 BRONZE_KEY_PRICE 1 7 9 KeyType.BRONZE rfl
    (by decide) (by decide) rfl (by decide)

end Carnival

namespace Carnival

/-- `fulfillRandomWords` neither reads nor writes the paused flag: running
it on a state with the flag forced to `b` gives the same result, with the
flag still `b`. -/
theorem fulfill_ignores_paused (s : CarnivalState) (R : Nat) (words : List Nat) (b : Bool) :
    fulfillRandomWords { s with paused := b } R words
      = Except.map (fun t => { t with paused := b }) (fulfillRandomWords s R words) := by
  unfold fulfillRandomWords
  by_cases hp : s.requestIdToPlayer R = 0
  · simp [hp, Except.map]
  · simp only [hp, ne_eq, not_false_eq_true, if_neg, if_false]
    match words with
    | [] => rfl
    | v :: rest =>
      have hfg : findGameByRequestId
          { s with paused := b, events := s.events ++ [Event.RandomnessFulfilled R v] } R
          = findGameByRequestId { s with events := s.events ++ [Event.RandomnessFulfilled R v] } R := rfl
      cases hfind : findGameByRequestId { s with events := s.events ++ [Event.RandomnessFulfilled R v] } R with
      | none => simp [hfg, hfind, Except.map]
      | some gid =>
        simp only [hfg, hfind, Except.map]
        split_ifs <;> rfl

/-- **C6** (confirmed): while paused, `playGame` reverts with the
`Suspended`-style error "Pausable: paused", but `fulfillRandomWords` — which
has no pause guard — behaves exactly as it would on the unpaused state
(settling the wager, updating stats, pool and leaderboard identically, with
only the flag kept); suspension blocks admissions only. -/
theorem c6_suspension_blocks_admissions_only (s : CarnivalState)
    (sender v door req now R : Nat) (k : KeyType) (words : List Nat)
    (hp : s.paused = true) :
    playGame s sender v k door req now = Except.error "Pausable: paused" ∧
    fulfillRandomWords s R words
      = Except.map (fun t => { t with paused := true })
          (fulfillRandomWords { s with paused := false } R words) := by
  constructor
  · unfold playGame; simp [hp]
  · have hs : s = { s with paused := true } := by
      conv_lhs => rw [show s = { s with paused := s.paused } from rfl, hp]
    have h1 := fulfill_ignores_paused s R words true
    have h2 := fulfill_ignores_paused s R words false
    conv_lhs => rw [hs]
    rw [h1, h2]
    cases fulfillRandomWords s R words with
    | error e => rfl
    | ok t => rfl

end Carnival

namespace Carnival

/-- Witness for C6: the paused initial state; admission by player 1 reverts
while a settlement call behaves as on the unpaused state. -/
theorem c6_witness :
    playGame { initialState 0 with paused := true } 1 BRONZE_KEY_PRICE KeyType.BRONZE 1 7 0
      = Except.error "Pausable: paused" ∧
    fulfillRandomWords { initialState 0 with paused := true } 7 [99]
      = Except.map (fun t => { t with paused := true })
          (fulfillRandomWords { { initialState 0 with paused := true } with paused := false } 7 [99]) :=
  c6_suspension_blocks_admissions_only { initialState 0 with paused := true }
    1 BRONZE_KEY_PRICE 1 7 0 7 KeyType.BRONZE [99] rfl

end Carnival

namespace Carnival

/-- **C8** (confirmed): the chosen door is cosmetic. Two admissions from the
fresh state that are identical except for the door number (both in 1..3),
settled with the same delivered random value, produce the same outcome tier
and the same payout. -/
theorem c8_door_cosmetic (sender d1 d2 req now v : Nat) (k : KeyType)
    (hd1 : 1 ≤ d1) (hd1b : d1 ≤ 3) (hd2 : 1 ≤ d2) (hd2b : d2 ≤ 3)
    (hs : sender ≠ 0) :
    let r1 := fulfillRandomWords
      (stateOf (playGame (initialState 0) sender (getKeyPrice k) k d1 req now)) req [v]
    let r2 := fulfillRandomWords
      (stateOf (playGame (initialState 0) sender (getKeyPrice k) k d2 req now)) req [v]
    isOk r1 = true ∧ isOk r2 = true ∧
    ((stateOf r1).games 0).result = ((stateOf r2).games 0).result ∧
    ((stateOf r1).games 0).payout = ((stateOf r2).games 0).payout := by
  have hplay : ∀ d, 1 ≤ d → d ≤ 3 →
      playGame (initialState 0) sender (getKeyPrice k) k d req now
        = Except.ok { initialState 0 with
            totalGamesPlayed := 1,
            totalKeysUsed := 1,
            games := fun i => if i = 0 then
                { player := sender, keyType := k, wager := getKeyPrice k,
                  doorSelected := d, result := .PENDING, payout := 0,
                  timestamp := now, requestId := req }
              else zeroGame,
            requestIdToPlayer := fun r => if r = req then sender else 0,
            playerGameHistory := fun a => if a = sender then [0] else [],
            playerStats := fun a => if a = sender then
                { zeroStats with
                  totalGames := 1, totalWagered := getKeyPrice k, lastPlayTime := now }
              else zeroStats,
            events := [Event.KeyPurchased sender k (getKeyPrice k),
              Event.GameStarted sender 0 req d,
              Event.RandomnessRequested req] } := by
    intro d ha hb
    unfold playGame
    simp [initialState, ha, hb, zeroGame, zeroStats]
  intro r1 r2
  rw [show r1 = fulfillRandomWords
      (stateOf (playGame (initialState 0) sender (getKeyPrice k) k d1 req now)) req [v] from rfl,
    show r2 = fulfillRandomWords
      (stateOf (playGame (initialState 0) sender (getKeyPrice k) k d2 req now)) req [v] from rfl,
    hplay d1 hd1 hd1b, hplay d2 hd2 hd2b]
  unfold fulfillRandomWords
  simp only [stateOf, hs, ne_eq, not_false_eq_true, if_neg, if_pos, findGameByRequestId,
    List.find?, beq_self_eq_true, updateLeaderboard]
  split_ifs <;> exact ⟨rfl, rfl, rfl, rfl⟩

end Carnival

namespace Carnival

/-- Witness for C8: doors 1 and 3, bronze key, player 1, random value 29. -/
theorem c8_witness :
    let r1 := fulfillRandomWords
      (stateOf (playGame (initialState 0) 1 (getKeyPrice KeyType.BRONZE) KeyType.BRONZE 1 7 0)) 7 [29]
    let r2 := fulfillRandomWords
      (stateOf (playGame (initialState 0) 1 (getKeyPrice KeyType.BRONZE) KeyType.BRONZE 3 7 0)) 7 [29]
    isOk r1 = true ∧ isOk r2 = true ∧
    ((stateOf r1).games 0).result = ((stateOf r2).games 0).result ∧
    ((stateOf r1).games 0).payout = ((stateOf r2).games 0).payout :=
  c8_door_cosmetic 1 1 3 7 0 29 KeyType.BRONZE (by decide) (by decide) (by decide)
    (by decide) (by decide)

end Carnival

namespace Carnival

/-- One bounded bubble pass is a permutation. -/
theorem onePassN_perm (w : Nat → Nat) : ∀ (n : Nat) (l : List Nat),
    List.Perm (onePassN w n l) l := by
  intro n
  induction n with
  | zero => intro l; exact List.Perm.refl _
  | succ n ih =>
    intro l
    match l with
    | [] => exact List.Perm.refl _
    | [a] => exact List.Perm.refl _
    | a :: b :: rest =>
      rw [show onePassN w (n + 1) (a :: b :: rest)
          = if w a < w b then b :: onePassN w n (a :: rest)
            else a :: onePassN w n (b :: rest) from rfl]
      by_cases hab : w a < w b
      · rw [if_pos hab]
        exact ((ih (a :: rest)).cons b).trans (List.Perm.swap a b rest)
      · rw [if_neg hab]
        exact (ih (b :: rest)).cons a

/-- A pass whose bound covers exactly the `front` block sinks a minimum of
`front` to the end of the block and leaves `tail` untouched. -/
theorem onePassN_split (w : Nat → Nat) :
    ∀ (n : Nat) (front tail : List Nat), front.length = n + 1 →
      ∃ front2 m, onePassN w n (front ++ tail) = front2 ++ m :: tail ∧
        front2.length = n ∧ List.Perm (front2 ++ [m]) front ∧ ∀ x ∈ front2, w m ≤ w x := by
  intro n
  induction n with
  | zero =>
    intro front tail hlen
    match front, hlen with
    | [a], _ => exact ⟨[], a, rfl, rfl, List.Perm.refl _, by simp⟩
  | succ n ih =>
    intro front tail hlen
    match front, hlen with
    | a :: b :: rest, hlen =>
      have hlr : rest.length = n := by simpa using hlen
      by_cases hab : w a < w b
      · obtain ⟨f2, m, heq, hl, hperm, hdom⟩ := ih (a :: rest) tail (by simp [hlr])
        refine ⟨b :: f2, m, ?_, by simp [hl], ?_, ?_⟩
        · rw [show (a :: b :: rest) ++ tail = a :: b :: (rest ++ tail) from rfl]
          rw [show onePassN w (n + 1) (a :: b :: (rest ++ tail))
              = if w a < w b then b :: onePassN w n (a :: (rest ++ tail))
                else a :: onePassN w n (b :: (rest ++ tail)) from rfl]
          rw [if_pos hab, show a :: (rest ++ tail) = (a :: rest) ++ tail from rfl, heq]
          rfl
        · exact (List.Perm.cons b hperm).trans (List.Perm.swap a b rest)
        · intro x hx
          rcases List.mem_cons.mp hx with rfl | hx2
          · have hma : w m ≤ w a := by
              have ha : a ∈ f2 ++ [m] := hperm.symm.subset (List.mem_cons_self a rest)
              rcases List.mem_append.mp ha with hf | hm2
              · exact hdom a hf
              · simp only [List.mem_singleton] at hm2
                rw [hm2]
            exact hma.trans (le_of_lt hab)
          · exact hdom x hx2
      · obtain ⟨f2, m, heq, hl, hperm, hdom⟩ := ih (b :: rest) tail (by simp [hlr])
        refine ⟨a :: f2, m, ?_, by simp [hl], ?_, ?_⟩
        · rw [show (a :: b :: rest) ++ tail = a :: b :: (rest ++ tail) from rfl]
          rw [show onePassN w (n + 1) (a :: b :: (rest ++ tail))
              = if w a < w b then b :: onePassN w n (a :: (rest ++ tail))
                else a :: onePassN w n (b :: (rest ++ tail)) from rfl]
          rw [if_neg hab, show b :: (rest ++ tail) = (b :: rest) ++ tail from rfl, heq]
          rfl
        · exact List.Perm.cons a hperm
        · intro x hx
          rcases List.mem_cons.mp hx with rfl | hx2
          · have hmb : w m ≤ w b := by
              have hb : b ∈ f2 ++ [m] := hperm.symm.subset (List.mem_cons_self b rest)
              rcases List.mem_append.mp hb with hf | hm2
              · exact hdom b hf
              · simp only [List.mem_singleton] at hm2
                rw [hm2]
            exact hmb.trans (Nat.le_of_not_lt hab)
          · exact hdom x hx2

/-- The full bubble sort is a permutation. -/
theorem bubbleOuter_perm (w : Nat → Nat) : ∀ (k : Nat) (l : List Nat),
    List.Perm (bubbleOuter w k l) l := by
  intro k
  induction k with
  | zero => intro l; exact List.Perm.refl _
  | succ k ih => intro l; exact (ih _).trans (onePassN_perm w (k + 1) l)

/-- Invariant of the outer loop: a front block of length `k + 1` dominating
an already-sorted tail is fully sorted by `k` more passes. -/
theorem bubbleOuter_sorted_aux (w : Nat → Nat) :
    ∀ (k : Nat) (front tail : List Nat), front.length = k + 1 →
      List.Pairwise (fun a b => w b ≤ w a) tail →
      (∀ x ∈ front, ∀ y ∈ tail, w y ≤ w x) →
      List.Pairwise (fun a b => w b ≤ w a) (bubbleOuter w k (front ++ tail)) := by
  intro k
  induction k with
  | zero =>
    intro front tail hlen htail hdom
    match front, hlen with
    | [a], _ =>
      rw [show bubbleOuter w 0 ([a] ++ tail) = a :: tail from rfl]
      exact List.pairwise_cons.mpr ⟨fun y hy => hdom a (by simp) y hy, htail⟩
  | succ k ih =>
    intro front tail hlen htail hdom
    obtain ⟨f2, m, heq, hl, hperm, hdom2⟩ := onePassN_split w (k + 1) front tail hlen
    rw [show bubbleOuter w (k + 1) (front ++ tail)
        = bubbleOuter w k (onePassN w (k + 1) (front ++ tail)) from rfl, heq]
    have hm : m ∈ front := hperm.subset (by simp)
    have hsub : ∀ x ∈ f2, x ∈ front := fun x hx => hperm.subset (by simp [hx])
    exact ih f2 (m :: tail) hl
      (List.pairwise_cons.mpr ⟨fun y hy => hdom m hm y hy, htail⟩)
      (by
        intro x hx y hy
        rcases List.mem_cons.mp hy with rfl | hy2
        · exact hdom2 x hx
        · exact hdom x (hsub x hx) y hy2)

/-- The contract's bubble sort (counter `length - 1`) sorts any list
descending by `w`. -/
theorem bubbleOuter_sorted (w : Nat → Nat) (l : List Nat) :
    List.Pairwise (fun a b => w b ≤ w a) (bubbleOuter w (l.length - 1) l) := by
  match l with
  | [] => exact List.Pairwise.nil
  | a :: l2 =>
    have h := bubbleOuter_sorted_aux w l2.length (a :: l2) [] (by simp)
      List.Pairwise.nil (by simp)
    simpa using h

/-- After `_updateLeaderboard` the leaderboard is sorted by `totalWon`
descending. -/
theorem updateLeaderboard_sorted (s : CarnivalState) (p : Nat) :
    List.Pairwise (fun a b => (s.playerStats b).totalWon ≤ (s.playerStats a).totalWon)
      (updateLeaderboard s p).leaderboard := by
  unfold updateLeaderboard
  exact bubbleOuter_sorted _ _

/-- `_updateLeaderboard` keeps or inserts the settling player whenever the
player is already listed or there is capacity. -/
theorem updateLeaderboard_mem (s : CarnivalState) (p : Nat)
    (h : p ∈ s.leaderboard ∨ s.leaderboard.length < 100) :
    p ∈ (updateLeaderboard s p).leaderboard := by
  unfold updateLeaderboard
  refine (bubbleOuter_perm _ _ _).mem_iff.mpr ?_
  by_cases hc : List.contains s.leaderboard p
  · have hmem : p ∈ s.leaderboard := by simpa using hc
    simp [hc, hmem]
  · rcases h with h1 | h2
    · exact absurd (by simpa using h1) hc
    · by_cases hm : p ∈ s.leaderboard <;> simp [hc, h2, hm]

/-- A settlement post-state is `_updateLeaderboard` of an intermediate
state followed by an event append: it ends sorted by `totalWon` descending
and contains the player whenever listed before or below capacity. -/
theorem settle_updates_leaderboard (s1 : CarnivalState) (p : Nat) (ev : List Event)
    (t : CarnivalState) (ht : t = { updateLeaderboard s1 p with events := ev }) :
    List.Pairwise (fun a b => (t.playerStats b).totalWon ≤ (t.playerStats a).totalWon)
      t.leaderboard ∧
    (p ∈ s1.leaderboard ∨ s1.leaderboard.length < 100 → p ∈ t.leaderboard) := by
  subst ht
  exact ⟨updateLeaderboard_sorted s1 p, fun hmem => updateLeaderboard_mem s1 p hmem⟩

end Carnival

namespace Carnival

/-- **C7** (amended): after every successful settlement the leaderboard is
ordered by total paid out descending — but ties are kept in the order the
leaderboard had before the re-sort (the bubble sort is stable), which is
not in general the insertion order — and the settling participant is in the
leaderboard whenever already present or the capacity of 100 allows.
Concretely, participants 1, 2, 3 winning one silver (`2e16`), bronze
(`1e16`) and gold (`5e16`) game respectively end as `[3, 1, 2]` — largest
pay-out first, matching the spec's `[C, A, B]` example. -/
theorem c7_leaderboard :
    (∀ (s : CarnivalState) (R : Nat) (words : List Nat) (t : CarnivalState),
      fulfillRandomWords s R words = Except.ok t →
      List.Pairwise (fun a b => (t.playerStats b).totalWon ≤ (t.playerStats a).totalWon)
        t.leaderboard ∧
      (s.requestIdToPlayer R ∈ s.leaderboard ∨ s.leaderboard.length < 100 →
        s.requestIdToPlayer R ∈ t.leaderboard)) ∧
    (let u1 := stateOf (fulfillRandomWords
      (stateOf (playGame (initialState 0) 1 SILVER_KEY_PRICE KeyType.SILVER 1 31 0)) 31 [0])
     let u2 := stateOf (fulfillRandomWords
      (stateOf (playGame u1 2 BRONZE_KEY_PRICE KeyType.BRONZE 1 32 0)) 32 [0])
     let u3 := stateOf (fulfillRandomWords
      (stateOf (playGame u2 3 GOLD_KEY_PRICE KeyType.GOLD 1 33 0)) 33 [0])
     (u3.playerStats 1).totalWon = 20000000000000000 ∧
     (u3.playerStats 2).totalWon = 10000000000000000 ∧
     (u3.playerStats 3).totalWon = 50000000000000000 ∧
     u3.leaderboard = [3, 1, 2]) := by
  constructor
  · intro s R words t h
    unfold fulfillRandomWords at h
    by_cases hp : s.requestIdToPlayer R = 0
    · simp [hp] at h
    · simp only [hp, ne_eq, not_false_eq_true, if_neg, if_false] at h
      cases words with
      | nil => exact absurd h (by simp)
      | cons v rest =>
        cases hfind : findGameByRequestId
            { s with events := s.events ++ [Event.RandomnessFulfilled R v] } R with
        | none =>
          simp only [hfind] at h
          exact absurd h (by simp)
        | some gid =>
          simp only [hfind] at h
          split_ifs at h with h1 h2 <;>
          · injection h with hX
            subst hX
            refine ⟨(settle_updates_leaderboard _ _ _ _ rfl).1, fun hmem => ?_⟩
            exact (settle_updates_leaderboard _ _ _ _ rfl).2 (by simpa using hmem)
  · decide

end Carnival

namespace Carnival

/-- Witness for C7: the universally quantified part applied to player 1's
settled bronze wager (request id 7, random value 99). -/
theorem c7_witness :
    let sa := stateOf (playGame (initialState 0) 1 BRONZE_KEY_PRICE KeyType.BRONZE 1 7 0)
    let tb := stateOf (fulfillRandomWords sa 7 [99])
    List.Pairwise (fun a b => (tb.playerStats b).totalWon ≤ (tb.playerStats a).totalWon)
      tb.leaderboard ∧
    (sa.requestIdToPlayer 7 ∈ sa.leaderboard ∨ sa.leaderboard.length < 100 →
      sa.requestIdToPlayer 7 ∈ tb.leaderboard) := by
  intro sa tb
  exact c7_leaderboard.1 sa 7 [99] tb rfl

end Carnival

namespace Carnival

/-- **C4** (counterexample): threshold 2, two bronze LOSE wagers of stake
`S = 5e15` wei. The pool is `0.95 S = 4.75e15` after the first settlement
as claimed, but the jackpot payout is `4.75e15 = 0.95 S` — not
`1.9 S = 9.5e15` — and after the second wager's settlement the pool holds
`4.75e15` again instead of 0. -/
theorem c4_counterexample :
    let s0 := { initialState 0 with jackpotTriggerCount := 2 }
    let s1 := stateOf (playGame s0 1 BRONZE_KEY_PRICE KeyType.BRONZE 1 11 0)
    let s2 := stateOf (fulfillRandomWords s1 11 [99])
    let s3 := stateOf (playGame s2 2 BRONZE_KEY_PRICE KeyType.BRONZE 1 12 0)
    let s4 := stateOf (fulfillRandomWords s3 12 [99])
    s2.jackpotPool = 4750000000000000 ∧
    s3.lastJackpotWinner = 2 ∧
    s3.lastJackpotAmount = 4750000000000000 ∧
    s4.jackpotPool = 4750000000000000 ∧
    ¬(s3.lastJackpotAmount = 9500000000000000 ∧ s4.jackpotPool = 0) := by
  decide

end Carnival
